import Mathlib

/-!
Verification of the task-scheduler backend core (task lifecycle service and
auth service) against its specification.  The Python services in
`backend/tasks/services.py` and `backend/auth/services.py` are shallowly
embedded: the relational store becomes an explicit record of lists, the
SQLAlchemy session operations (`add`/`commit`/`refresh`/`query`) become pure
state passing, `datetime` values become natural-number timestamps, and
`HTTPException` becomes an error value carried in `Except`.
-/

namespace TaskScheduler

/-- Error value mirroring fastapi's HTTPException as raised by the services. -/
structure HTTPException where
  status_code : Nat
  detail : String
deriving Repr, DecidableEq

/-- Mirrors fastapi `status.HTTP_404_NOT_FOUND`. -/
def HTTP_404_NOT_FOUND : Nat := 404

/-- Mirrors fastapi `status.HTTP_500_INTERNAL_SERVER_ERROR`. -/
def HTTP_500_INTERNAL_SERVER_ERROR : Nat := 500

/-- Persisted Task row, mirroring `backend/tasks/model.py` class `Task`.
Timestamps (`createdDate`, `dueDate`) are modelled as natural numbers. -/
structure Task where
  id : Nat
  title : String
  description : String
  status : String
  createdDate : Nat
  dueDate : Nat
deriving Repr, DecidableEq

/-- Create payload, mirroring `backend/tasks/schema.py` class `TaskBase`
(`id` and `createdDate` are `Optional` in the pydantic schema). -/
structure TaskBase where
  id : Option Nat
  title : String
  description : String
  status : String
  createdDate : Option Nat
  dueDate : Nat
deriving Repr, DecidableEq

/-- Partial-update payload, mirroring `backend/tasks/schema.py` class
`TaskUpdate`: every field is `Optional` and defaults to `None` when absent. -/
structure TaskUpdate where
  title : Option String
  description : Option String
  status : Option String
  dueDate : Option Nat
deriving Repr, DecidableEq

/-- The task table of the relational store: rows in insertion order plus the
autoincrement counter for the integer primary key. -/
structure TaskDB where
  tasks : List Task
  nextId : Nat
deriving Repr, DecidableEq

/-- Python truthiness applied to an optional string field, as in the update
expressions `request.title if request.title else task.title`: both `None`
and the empty string are falsy, so they fall back to the stored value. -/
def pickStr (new : Option String) (old : String) : String :=
  match new with
  | none => old
  | some s => if s = "" then old else s

/-- Python truthiness applied to an optional datetime field, as in
`request.dueDate if request.dueDate else task.dueDate`: a datetime object is
always truthy, so only `None` falls back to the stored value. -/
def pickDT (new : Option Nat) (old : Nat) : Nat :=
  match new with
  | none => old
  | some d => d

/-- Mirrors `create_new_task` in `backend/tasks/services.py`: builds a Task
from `request.title`, `request.description`, `request.status`,
`request.dueDate`, setting `createdDate=datetime.now()` (the `now`
parameter); `database.add` assigns the autoincrement id and appends the row,
then `commit`/`refresh` make it persistent.  `request.id` and
`request.createdDate` are never read. -/
def create_new_task (request : TaskBase) (now : Nat) (database : TaskDB) :
    Task × TaskDB :=
  let new_task : Task :=
    { id := database.nextId
      title := request.title
      description := request.description
      status := request.status
      createdDate := now
      dueDate := request.dueDate }
  (new_task, { tasks := database.tasks ++ [new_task], nextId := database.nextId + 1 })

/-- Mirrors `get_task_listing` in `backend/tasks/services.py`. -/
def get_task_listing (database : TaskDB) : List Task :=
  database.tasks

/-- Mirrors `get_task_by_id` in `backend/tasks/services.py`: the first row
with the given id, or HTTP 404 when the query yields nothing. -/
def get_task_by_id (task_id : Nat) (database : TaskDB) : Except HTTPException Task :=
  match database.tasks.find? (fun t => t.id == task_id) with
  | none => .error { status_code := HTTP_404_NOT_FOUND, detail := "task Not Found !" }
  | some task => .ok task

/-- Mirrors `delete_task_by_id` in `backend/tasks/services.py`: deletes every
row matching the id and commits; no error and no return value either way. -/
def delete_task_by_id (task_id : Nat) (database : TaskDB) : TaskDB :=
  { database with tasks := database.tasks.filter (fun t => t.id != task_id) }

/-- Mirrors `update_task_by_id` in `backend/tasks/services.py`: 404 when no
row matches, otherwise each field is overwritten only when the payload field
is truthy (`task.title = request.title if request.title else task.title`,
and likewise for description, status and dueDate), then the mutated row is
committed in place and returned. -/
def update_task_by_id (request : TaskUpdate) (task_id : Nat) (database : TaskDB) :
    Except HTTPException Task × TaskDB :=
  match database.tasks.find? (fun t => t.id == task_id) with
  | none =>
      (.error { status_code := HTTP_404_NOT_FOUND, detail := "task Not Found !" }, database)
  | some task =>
      let task2 : Task :=
        { task with
          title := pickStr request.title task.title
          description := pickStr request.description task.description
          status := pickStr request.status task.status
          dueDate := pickDT request.dueDate task.dueDate }
      (.ok task2,
        { database with
          tasks := database.tasks.map (fun t => if t.id == task_id then task2 else t) })

/-- Persisted User row, mirroring `backend/auth/models.py` class `User`.
The `password` column holds whatever value the constructor stored. -/
structure User where
  id : Nat
  username : String
  email : String
  role : String
  password : String
deriving Repr, DecidableEq

/-- Registration payload, mirroring `backend/auth/schema.py` class `User`
(renamed here to avoid clashing with the model row). -/
structure RegisterRequest where
  username : String
  email : String
  password : String
deriving Repr, DecidableEq

/-- The user table of the relational store, with its autoincrement counter.
The `email` column carries `unique=True`, enforced at commit time. -/
structure AuthDB where
  users : List User
  nextUserId : Nat
deriving Repr, DecidableEq

/-- Mirrors `new_user_register` in `backend/auth/services.py` together with
`User.__init__` in `backend/auth/models.py`: the constructor stores
`hashing.get_password_hash(password)` in the password column, the session
adds the row and commits.  The hashing collaborator `backend/auth/hashing`
is not under src; modelled from the spec contract
`hash(plaintext) -> opaque_digest` as the function parameter `hash`.  A
commit violating the unique email column raises, and the except-clause rolls
the transaction back and raises HTTP 500. -/
def new_user_register (hash : String → String) (request : RegisterRequest)
    (database : AuthDB) : Except HTTPException User × AuthDB :=
  let new_user : User :=
    { id := database.nextUserId
      username := request.username
      email := request.email
      role := "user"
      password := hash request.password }
  if database.users.any (fun u => u.email == request.email) then
    (.error { status_code := HTTP_500_INTERNAL_SERVER_ERROR
              detail := "An error occurred while registering the user" },
      database)
  else
    (.ok new_user,
      { users := database.users ++ [new_user], nextUserId := database.nextUserId + 1 })

/-- Mirrors `all_users` in `backend/auth/services.py`. -/
def all_users (database : AuthDB) : List User :=
  database.users

/-- Mirrors `get_user_by_id` in `backend/auth/services.py`: HTTP 404 when the
primary-key lookup yields nothing, otherwise the row. -/
def get_user_by_id (user_id : Nat) (database : AuthDB) : Except HTTPException User :=
  match database.users.find? (fun u => u.id == user_id) with
  | none => .error { status_code := HTTP_404_NOT_FOUND, detail := "Data not found!" }
  | some user_info => .ok user_info

/-- Mirrors `get_profile` in `backend/auth/services.py`: filters by the
current user's email and returns `.first()` unchecked, so an absent match
comes back as `None` rather than an error. -/
def get_profile (database : AuthDB) (current_user_email : String) : Option User :=
  database.users.find? (fun u => u.email == current_user_email)

/-- C4: for every valid create payload, the created task's `createdDate` is
the server-side creation instant, and the payload's own `createdDate` field
is never read: replacing it by any value leaves the result of `create`
unchanged. -/
theorem create_sets_createdDate_server_side (r : TaskBase) (now : Nat) (db : TaskDB) :
    (create_new_task r now db).1.createdDate = now ∧
    ∀ c : Option Nat, create_new_task { r with createdDate := c } now db =
      create_new_task r now db := by
  exact ⟨rfl, fun c => rfl⟩

/-- C6: deleting the same id twice in a row is observable as success both
times (the operation returns no error by construction), and the storage
state after the second call equals the state after the first. -/
theorem delete_idempotent (task_id : Nat) (db : TaskDB) :
    delete_task_by_id task_id (delete_task_by_id task_id db) =
      delete_task_by_id task_id db := by
  simp [delete_task_by_id, List.filter_filter]

/-- C2: when no task is stored under `task_id`, `get_task_by_id` fails with
HTTP 404, `update_task_by_id` fails with HTTP 404 for every payload and
leaves storage unchanged, and `delete_task_by_id` succeeds with no error and
leaves storage unchanged. -/
theorem absent_id_behaviour (task_id : Nat) (db : TaskDB) (r : TaskUpdate)
    (h : ∀ t ∈ db.tasks, t.id ≠ task_id) :
    (∃ e, get_task_by_id task_id db = .error e ∧ e.status_code = HTTP_404_NOT_FOUND) ∧
    (∃ e, (update_task_by_id r task_id db).1 = .error e ∧
      e.status_code = HTTP_404_NOT_FOUND ∧ (update_task_by_id r task_id db).2 = db) ∧
    delete_task_by_id task_id db = db := by
  have hn : db.tasks.find? (fun t => t.id == task_id) = none :=
    List.find?_eq_none.mpr (fun t ht => by simpa using h t ht)
  refine ⟨⟨{ status_code := HTTP_404_NOT_FOUND, detail := "task Not Found !" }, ?_, rfl⟩,
    ⟨{ status_code := HTTP_404_NOT_FOUND, detail := "task Not Found !" }, ?_, rfl, ?_⟩, ?_⟩
  · simp [get_task_by_id, hn]
  · simp [update_task_by_id, hn]
  · simp [update_task_by_id, hn]
  · simp only [delete_task_by_id]
    have : db.tasks.filter (fun t => t.id != task_id) = db.tasks :=
      List.filter_eq_self.mpr (fun t ht => by simpa using h t ht)
    simp [this]

/-- C2 witness: the absent-id behaviour at a concrete store holding only a
task with id 1, queried at id 2. -/
theorem absent_id_behaviour_witness :
    (∃ e, get_task_by_id 2 ⟨[⟨1, "T1", "D1", "pending", 5, 9⟩], 2⟩ = .error e ∧
      e.status_code = HTTP_404_NOT_FOUND) ∧
    (∃ e, (update_task_by_id ⟨some "x", none, none, none⟩ 2
        ⟨[⟨1, "T1", "D1", "pending", 5, 9⟩], 2⟩).1 = .error e ∧
      e.status_code = HTTP_404_NOT_FOUND ∧
      (update_task_by_id ⟨some "x", none, none, none⟩ 2
        ⟨[⟨1, "T1", "D1", "pending", 5, 9⟩], 2⟩).2 =
        ⟨[⟨1, "T1", "D1", "pending", 5, 9⟩], 2⟩) ∧
    delete_task_by_id 2 ⟨[⟨1, "T1", "D1", "pending", 5, 9⟩], 2⟩ =
      ⟨[⟨1, "T1", "D1", "pending", 5, 9⟩], 2⟩ :=
  absent_id_behaviour 2 ⟨[⟨1, "T1", "D1", "pending", 5, 9⟩], 2⟩
    ⟨some "x", none, none, none⟩ (by decide)

/-- C5: creating a task and immediately fetching the returned id yields a
record equal, field by field, to the one returned by create, provided every
stored id is below the autoincrement counter (which the storage engine
guarantees). -/
theorem create_get_roundtrip (r : TaskBase) (now : Nat) (db : TaskDB)
    (h : ∀ t ∈ db.tasks, t.id < db.nextId) :
    get_task_by_id (create_new_task r now db).1.id (create_new_task r now db).2 =
      .ok (create_new_task r now db).1 := by
  have hn : db.tasks.find? (fun t => t.id == db.nextId) = none :=
    List.find?_eq_none.mpr (fun t ht => by
      simpa using Nat.ne_of_lt (h t ht))
  simp [get_task_by_id, create_new_task, List.find?_append, hn]

/-- C5 witness: the round trip at a concrete payload over a concrete store
already holding one task. -/
theorem create_get_roundtrip_witness :
    get_task_by_id
        (create_new_task ⟨none, "T1", "D1", "pending", some 3, 9⟩ 7
          ⟨[⟨0, "old", "od", "completed", 1, 2⟩], 1⟩).1.id
        (create_new_task ⟨none, "T1", "D1", "pending", some 3, 9⟩ 7
          ⟨[⟨0, "old", "od", "completed", 1, 2⟩], 1⟩).2 =
      .ok (create_new_task ⟨none, "T1", "D1", "pending", some 3, 9⟩ 7
          ⟨[⟨0, "old", "od", "completed", 1, 2⟩], 1⟩).1 :=
  create_get_roundtrip ⟨none, "T1", "D1", "pending", some 3, 9⟩ 7
    ⟨[⟨0, "old", "od", "completed", 1, 2⟩], 1⟩ (by decide)

/-- Helper: in a task table whose rows have pairwise-distinct ids (the
primary-key invariant), two members with the same id are the same row. -/
theorem eq_of_mem_of_id_eq {l : List Task}
    (hnodup : l.Pairwise (fun a b => a.id ≠ b.id))
    {a b : Task} (ha : a ∈ l) (hb : b ∈ l) (hid : a.id = b.id) : a = b := by
  by_contra hne
  exact List.Pairwise.forall (fun x y hxy => Ne.symm hxy) hnodup ha hb hne hid

/-- C1: updating an existing task overwrites each stored field exactly when
the payload carries that field with a non-falsy value; a field that is
absent (None) or falsy (the empty string; for dueDate only None is falsy)
keeps its prior value, and id and createdDate are untouched.  The updated
record is both returned and stored. -/
theorem update_partial_law (r : TaskUpdate) (task_id : Nat) (db : TaskDB) (t : Task)
    (h : db.tasks.find? (fun u => u.id == task_id) = some t) :
    ∃ t2, (update_task_by_id r task_id db).1 = .ok t2 ∧
      t2 ∈ (update_task_by_id r task_id db).2.tasks ∧
      ((r.title = none ∨ r.title = some "") → t2.title = t.title) ∧
      (∀ s, r.title = some s → s ≠ "" → t2.title = s) ∧
      ((r.description = none ∨ r.description = some "") → t2.description = t.description) ∧
      (∀ s, r.description = some s → s ≠ "" → t2.description = s) ∧
      ((r.status = none ∨ r.status = some "") → t2.status = t.status) ∧
      (∀ s, r.status = some s → s ≠ "" → t2.status = s) ∧
      (r.dueDate = none → t2.dueDate = t.dueDate) ∧
      (∀ d, r.dueDate = some d → t2.dueDate = d) ∧
      t2.id = t.id ∧ t2.createdDate = t.createdDate := by
  have hmem : t ∈ db.tasks := List.mem_of_find?_eq_some h
  have hid : t.id = task_id := by simpa using List.find?_some h
  refine ⟨{ t with
      title := pickStr r.title t.title
      description := pickStr r.description t.description
      status := pickStr r.status t.status
      dueDate := pickDT r.dueDate t.dueDate }, ?_, ?_, ?_, ?_, ?_, ?_, ?_, ?_, ?_, ?_, rfl, rfl⟩
  · simp [update_task_by_id, h]
  · simp only [update_task_by_id, h]
    refine List.mem_map.mpr ⟨t, hmem, ?_⟩
    simp [hid]
  · rintro (h1 | h1) <;> simp [pickStr, h1]
  · intro s hs hne
    simp [pickStr, hs, hne]
  · rintro (h1 | h1) <;> simp [pickStr, h1]
  · intro s hs hne
    simp [pickStr, hs, hne]
  · rintro (h1 | h1) <;> simp [pickStr, h1]
  · intro s hs hne
    simp [pickStr, hs, hne]
  · intro h1
    simp [pickDT, h1]
  · intro d hd
    simp [pickDT, hd]

/-- C1 witness: a status-only update payload at a concrete store changes only
the status and leaves title, description, dueDate, id, createdDate intact. -/
theorem update_partial_law_witness :
    ∃ t2, (update_task_by_id ⟨none, none, some "completed", none⟩ 1
        ⟨[⟨1, "T1", "D1", "pending", 5, 9⟩], 2⟩).1 = .ok t2 ∧
      t2 ∈ (update_task_by_id ⟨none, none, some "completed", none⟩ 1
        ⟨[⟨1, "T1", "D1", "pending", 5, 9⟩], 2⟩).2.tasks ∧
      (((⟨none, none, some "completed", none⟩ : TaskUpdate).title = none ∨
        (⟨none, none, some "completed", none⟩ : TaskUpdate).title = some "") →
        t2.title = "T1") ∧
      (∀ s, (⟨none, none, some "completed", none⟩ : TaskUpdate).title = some s → s ≠ "" →
        t2.title = s) ∧
      (((⟨none, none, some "completed", none⟩ : TaskUpdate).description = none ∨
        (⟨none, none, some "completed", none⟩ : TaskUpdate).description = some "") →
        t2.description = "D1") ∧
      (∀ s, (⟨none, none, some "completed", none⟩ : TaskUpdate).description = some s → s ≠ "" →
        t2.description = s) ∧
      (((⟨none, none, some "completed", none⟩ : TaskUpdate).status = none ∨
        (⟨none, none, some "completed", none⟩ : TaskUpdate).status = some "") →
        t2.status = "pending") ∧
      (∀ s, (⟨none, none, some "completed", none⟩ : TaskUpdate).status = some s → s ≠ "" →
        t2.status = s) ∧
      ((⟨none, none, some "completed", none⟩ : TaskUpdate).dueDate = none → t2.dueDate = 9) ∧
      (∀ d, (⟨none, none, some "completed", none⟩ : TaskUpdate).dueDate = some d →
        t2.dueDate = d) ∧
      t2.id = 1 ∧ t2.createdDate = 5 :=
  update_partial_law ⟨none, none, some "completed", none⟩ 1
    ⟨[⟨1, "T1", "D1", "pending", 5, 9⟩], 2⟩ ⟨1, "T1", "D1", "pending", 5, 9⟩ (by decide)

/-- C7: an update never changes the stored id or createdDate of any row
(assuming the primary-key invariant that stored ids are pairwise distinct),
and a delete only removes rows, leaving every surviving row untouched. -/
theorem update_preserves_id_createdDate (r : TaskUpdate) (task_id : Nat) (db : TaskDB)
    (hnodup : db.tasks.Pairwise (fun a b => a.id ≠ b.id)) :
    (update_task_by_id r task_id db).2.tasks.map (fun t => (t.id, t.createdDate)) =
      db.tasks.map (fun t => (t.id, t.createdDate)) ∧
    ∀ i, ∀ t ∈ (delete_task_by_id i db).tasks, t ∈ db.tasks := by
  constructor
  · cases hf : db.tasks.find? (fun u => u.id == task_id) with
    | none => simp [update_task_by_id, hf]
    | some t =>
        have hmem : t ∈ db.tasks := List.mem_of_find?_eq_some hf
        have hid : t.id = task_id := by simpa using List.find?_some hf
        simp only [update_task_by_id, hf, List.map_map]
        refine List.map_congr_left (fun u hu => ?_)
        by_cases hcase : u.id = task_id
        · have hut : u = t := eq_of_mem_of_id_eq hnodup hu hmem (by rw [hcase, hid])
          subst hut
          simp [hcase]
        · simp [hcase]
  · intro i t ht
    exact List.mem_of_mem_filter ht

/-- C7 witness: id/createdDate preservation at a concrete two-row store. -/
theorem update_preserves_id_createdDate_witness :
    (update_task_by_id ⟨some "x", some "", none, some 42⟩ 1
        ⟨[⟨1, "T1", "D1", "pending", 5, 9⟩, ⟨2, "T2", "D2", "completed", 6, 8⟩], 3⟩).2.tasks.map
        (fun t => (t.id, t.createdDate)) =
      (⟨[⟨1, "T1", "D1", "pending", 5, 9⟩, ⟨2, "T2", "D2", "completed", 6, 8⟩], 3⟩ :
        TaskDB).tasks.map (fun t => (t.id, t.createdDate)) ∧
    ∀ i, ∀ t ∈ (delete_task_by_id i
        ⟨[⟨1, "T1", "D1", "pending", 5, 9⟩, ⟨2, "T2", "D2", "completed", 6, 8⟩], 3⟩).tasks,
      t ∈ (⟨[⟨1, "T1", "D1", "pending", 5, 9⟩, ⟨2, "T2", "D2", "completed", 6, 8⟩], 3⟩ :
        TaskDB).tasks :=
  update_preserves_id_createdDate ⟨some "x", some "", none, some 42⟩ 1
    ⟨[⟨1, "T1", "D1", "pending", 5, 9⟩, ⟨2, "T2", "D2", "completed", 6, 8⟩], 3⟩ (by decide)

/-- C10: an update whose payload fields are all absent or falsy succeeds on
an existing task, returns the stored record unchanged, and leaves the whole
store identical (assuming the primary-key invariant of distinct ids). -/
theorem update_noop_identity (r : TaskUpdate) (task_id : Nat) (db : TaskDB) (t : Task)
    (hf : db.tasks.find? (fun u => u.id == task_id) = some t)
    (hnodup : db.tasks.Pairwise (fun a b => a.id ≠ b.id))
    (h1 : r.title = none ∨ r.title = some "")
    (h2 : r.description = none ∨ r.description = some "")
    (h3 : r.status = none ∨ r.status = some "")
    (h4 : r.dueDate = none) :
    (update_task_by_id r task_id db).1 = .ok t ∧
    (update_task_by_id r task_id db).2 = db := by
  have hmem : t ∈ db.tasks := List.mem_of_find?_eq_some hf
  have hid : t.id = task_id := by simpa using List.find?_some hf
  have ht1 : pickStr r.title t.title = t.title := by
    rcases h1 with h1 | h1 <;> simp [pickStr, h1]
  have ht2 : pickStr r.description t.description = t.description := by
    rcases h2 with h2 | h2 <;> simp [pickStr, h2]
  have ht3 : pickStr r.status t.status = t.status := by
    rcases h3 with h3 | h3 <;> simp [pickStr, h3]
  have ht4 : pickDT r.dueDate t.dueDate = t.dueDate := by
    simp [pickDT, h4]
  have ht : ({ t with
      title := pickStr r.title t.title
      description := pickStr r.description t.description
      status := pickStr r.status t.status
      dueDate := pickDT r.dueDate t.dueDate } : Task) = t := by
    cases t
    simp [ht1, ht2, ht3, ht4]
  have hmap : db.tasks.map (fun u => if u.id == task_id then t else u) = db.tasks := by
    calc db.tasks.map (fun u => if u.id == task_id then t else u)
        = db.tasks.map id := List.map_congr_left (fun u hu => by
          by_cases hcase : u.id = task_id
          · have hut : u = t := eq_of_mem_of_id_eq hnodup hu hmem (by rw [hcase, hid])
            simp [hcase, hut]
          · simp [hcase])
      _ = db.tasks := List.map_id _
  constructor
  · simp [update_task_by_id, hf, ht]
  · simp only [update_task_by_id, hf, ht, hmap]

/-- C10 witness: the all-falsy payload (empty-string title and status,
absent description and dueDate) at a concrete store is an identity. -/
theorem update_noop_identity_witness :
    (update_task_by_id ⟨some "", none, some "", none⟩ 1
        ⟨[⟨1, "T1", "D1", "pending", 5, 9⟩], 2⟩).1 =
      .ok ⟨1, "T1", "D1", "pending", 5, 9⟩ ∧
    (update_task_by_id ⟨some "", none, some "", none⟩ 1
        ⟨[⟨1, "T1", "D1", "pending", 5, 9⟩], 2⟩).2 =
      ⟨[⟨1, "T1", "D1", "pending", 5, 9⟩], 2⟩ :=
  update_noop_identity ⟨some "", none, some "", none⟩ 1
    ⟨[⟨1, "T1", "D1", "pending", 5, 9⟩], 2⟩ ⟨1, "T1", "D1", "pending", 5, 9⟩
    (by decide) (by decide) (by decide) (by decide) (by decide) (by decide)

/-- C3 counterexample: registering a second user with an email already in
the store fails with HTTP 500 (the blanket except-clause of
`new_user_register` swallows the uniqueness violation), not with a
Conflict/409 error as the claim states. -/
theorem register_duplicate_email_counterexample :
    (new_user_register (fun s => String.append "#" s)
        ⟨"bob", "alice@example.com", "pw2"⟩
        ⟨[⟨1, "alice", "alice@example.com", "user", "#pw1"⟩], 2⟩).1 =
      .error ⟨HTTP_500_INTERNAL_SERVER_ERROR,
        "An error occurred while registering the user"⟩ ∧
    HTTP_500_INTERNAL_SERVER_ERROR ≠ 409 := by
  constructor
  · rfl
  · decide

/-- C3 amended: when a user with the requested email already exists,
registration fails with HTTP 500 (InternalError wrapping the storage
failure), and the rollback leaves the store — and hence the first user and
all its fields — unchanged. -/
theorem register_duplicate_email_internal_error (hash : String → String)
    (r : RegisterRequest) (db : AuthDB) (u : User)
    (hu : u ∈ db.users) (he : u.email = r.email) :
    (new_user_register hash r db).1 =
      .error ⟨HTTP_500_INTERNAL_SERVER_ERROR,
        "An error occurred while registering the user"⟩ ∧
    (new_user_register hash r db).2 = db := by
  have hc : db.users.any (fun v => v.email == r.email) = true :=
    List.any_eq_true.mpr ⟨u, hu, by simp [he]⟩
  constructor <;> simp [new_user_register, hc]

/-- C3 amended witness: the duplicate-email failure and rollback at a
concrete store holding the first user. -/
theorem register_duplicate_email_internal_error_witness :
    (new_user_register (fun s => String.append "#" s)
        ⟨"carol", "alice@example.com", "pw3"⟩
        ⟨[⟨1, "alice", "alice@example.com", "user", "#pw1"⟩], 2⟩).1 =
      .error ⟨HTTP_500_INTERNAL_SERVER_ERROR,
        "An error occurred while registering the user"⟩ ∧
    (new_user_register (fun s => String.append "#" s)
        ⟨"carol", "alice@example.com", "pw3"⟩
        ⟨[⟨1, "alice", "alice@example.com", "user", "#pw1"⟩], 2⟩).2 =
      ⟨[⟨1, "alice", "alice@example.com", "user", "#pw1"⟩], 2⟩ :=
  register_duplicate_email_internal_error (fun s => String.append "#" s)
    ⟨"carol", "alice@example.com", "pw3"⟩
    ⟨[⟨1, "alice", "alice@example.com", "user", "#pw1"⟩], 2⟩
    ⟨1, "alice", "alice@example.com", "user", "#pw1"⟩ (by simp) rfl

/-- C8: a successful registration persists exactly one new User whose stored
password column holds the hashing collaborator's digest of the plaintext; in
particular, whenever the digest differs from the plaintext (irreversibility),
the plaintext is not what got written. -/
theorem register_stores_hash_not_plaintext (hash : String → String)
    (r : RegisterRequest) (db : AuthDB)
    (h : ∀ u ∈ db.users, u.email ≠ r.email) :
    ∃ u, (new_user_register hash r db).1 = .ok u ∧
      u.password = hash r.password ∧
      u.role = "user" ∧
      (new_user_register hash r db).2.users = db.users ++ [u] ∧
      (hash r.password ≠ r.password → u.password ≠ r.password) := by
  have hc : db.users.any (fun v => v.email == r.email) = false := by
    simp only [List.any_eq_false]
    intro v hv
    simpa using h v hv
  refine ⟨⟨db.nextUserId, r.username, r.email, "user", hash r.password⟩,
    ?_, rfl, rfl, ?_, fun hne => hne⟩
  · simp [new_user_register, hc]
  · simp [new_user_register, hc]

/-- C8 witness: registration at a concrete store stores the digest of the
plaintext, not the plaintext. -/
theorem register_stores_hash_not_plaintext_witness :
    ∃ u, (new_user_register (fun s => String.append "#" s)
        ⟨"alice", "alice@example.com", "pw1"⟩ ⟨[], 1⟩).1 = .ok u ∧
      u.password = String.append "#" "pw1" ∧
      u.role = "user" ∧
      (new_user_register (fun s => String.append "#" s)
        ⟨"alice", "alice@example.com", "pw1"⟩ ⟨[], 1⟩).2.users = [] ++ [u] ∧
      (String.append "#" "pw1" ≠ "pw1" → u.password ≠ "pw1") :=
  register_stores_hash_not_plaintext (fun s => String.append "#" s)
    ⟨"alice", "alice@example.com", "pw1"⟩ ⟨[], 1⟩ (by simp)

/-- C9: when no stored user carries the email, `get_profile` returns the
absent value without any error, while `get_user_by_id` on an absent id fails
with HTTP 404 — the asymmetry between the two lookups. -/
theorem get_profile_absent_tolerant (db : AuthDB) (email : String) (uid : Nat)
    (h1 : ∀ u ∈ db.users, u.email ≠ email) (h2 : ∀ u ∈ db.users, u.id ≠ uid) :
    get_profile db email = none ∧
    get_user_by_id uid db = .error ⟨HTTP_404_NOT_FOUND, "Data not found!"⟩ := by
  have hn1 : db.users.find? (fun u => u.email == email) = none :=
    List.find?_eq_none.mpr (fun u hu => by simpa using h1 u hu)
  have hn2 : db.users.find? (fun u => u.id == uid) = none :=
    List.find?_eq_none.mpr (fun u hu => by simpa using h2 u hu)
  constructor
  · simp [get_profile, hn1]
  · simp [get_user_by_id, hn2]

/-- C9 witness: the lookup asymmetry at a concrete store holding one user,
queried with an unknown email and an unknown id. -/
theorem get_profile_absent_tolerant_witness :
    get_profile ⟨[⟨1, "alice", "alice@example.com", "user", "#pw1"⟩], 2⟩
      "bob@example.com" = none ∧
    get_user_by_id 7 ⟨[⟨1, "alice", "alice@example.com", "user", "#pw1"⟩], 2⟩ =
      .error ⟨HTTP_404_NOT_FOUND, "Data not found!"⟩ :=
  get_profile_absent_tolerant ⟨[⟨1, "alice", "alice@example.com", "user", "#pw1"⟩], 2⟩
    "bob@example.com" 7 (by decide) (by decide)

end TaskScheduler
